import Mathlib

/-!
Shallow embedding of the results/query pipeline of vanilla-smart-select:
the Item Store (`DataAdapter`), the Text Matcher / local filter
(`SearchManager`), the Remote Source (`AjaxAdapter`) and the Query
Coordinator (`ResultsAdapter` in `src/adapters/DropdownAdapter.js`),
plus the navigation loop of `KeyboardManager`.

JavaScript objects are modelled as records with `Option`-typed fields
(`none` = the property is `undefined`); primitive JS values that can act
as an item `id` are modelled by `JVal`.  Promise-based code is modelled
by explicit state passing: issuing a request is the synchronous part of
the JS function, and delivering a response runs the `.then` callback on
the state at delivery time, exactly as the single-threaded event loop
does.  DOM rendering is reduced to the data handed to it (`displayed`),
and event emission to a list of emitted events.
-/

/-- A primitive JavaScript value usable as an item `id`.
`Option JVal` adds the `undefined` case as `none`. -/
inductive JVal : Type where
  | str (s : String)
  | num (n : Int)
  | boolean (b : Bool)
  | null
deriving DecidableEq, Repr

/-- JavaScript `String(v)` on a primitive value. -/
def JVal.jstr : JVal → String
  | .str s => s
  | .num n => toString n
  | .boolean b => if b then "true" else "false"
  | .null => "null"

/-- JavaScript `String(v)` where `v` may be `undefined`. -/
def jstrOpt : Option JVal → String
  | none => "undefined"
  | some v => v.jstr

/-- A raw data item / group as the JavaScript code sees it: `id`, `text`,
`disabled`, `selected` and `children` may each be absent (`undefined`),
and arbitrary extra caller-defined properties are kept in `extra`
(the `{...item}` spread).  Groups are items whose `children` is an
array; the code recurses into children without a depth bound, so the
type is recursive. -/
inductive RawItem : Type where
  | mk (id : Option JVal) (text : Option String) (disabled : Option Bool)
       (selected : Option Bool) (extra : List (String × JVal))
       (children : Option (List RawItem)) : RawItem
deriving Repr

def RawItem.id : RawItem → Option JVal
  | .mk i _ _ _ _ _ => i

def RawItem.text : RawItem → Option String
  | .mk _ t _ _ _ _ => t

def RawItem.disabled : RawItem → Option Bool
  | .mk _ _ d _ _ _ => d

def RawItem.selected : RawItem → Option Bool
  | .mk _ _ _ s _ _ => s

def RawItem.extra : RawItem → List (String × JVal)
  | .mk _ _ _ _ e _ => e

def RawItem.children : RawItem → Option (List RawItem)
  | .mk _ _ _ _ _ c => c

/-- JS truthiness of the `disabled` property (`if (item.disabled)`). -/
def RawItem.isDisabled (it : RawItem) : Bool :=
  it.disabled = some true

/-- `{...item, children: cs}` — replace the `children` property. -/
def RawItem.withChildren (it : RawItem) (cs : List RawItem) : RawItem :=
  match it with
  | .mk i t d s e _ => .mk i t d s e (some cs)

/-- `tag._isTag = true` — set the transient tag-marker property
(kept among the extra caller-visible properties, as in the source). -/
def RawItem.setIsTag (it : RawItem) : RawItem :=
  match it with
  | .mk i t d s e c => .mk i t d s (("_isTag", JVal.boolean true) :: e) c

/-- JS truthiness of the `_isTag` property (`if (item._isTag)`). -/
def RawItem.isTagFlag (it : RawItem) : Bool :=
  match it.extra.lookup "_isTag" with
  | some (JVal.boolean b) => b
  | some (JVal.str s) => s ≠ ""
  | some (JVal.num n) => n ≠ 0
  | some JVal.null => false
  | none => false

mutual

/-- `DataAdapter._normalizeItem` / `AjaxAdapter._normalizeItem` (the two
copies are line-for-line identical on the data they touch): spread the
item, fill `id` from `text` when `id` is `undefined`, default `text` to
`""`, `disabled`/`selected` to `false`, and recursively normalize an
array of `children` (`children.map(normalizeItem)`, written with a
mutual list helper for structural recursion). -/
def normalizeItem : RawItem → RawItem
  | .mk i t d s ex ch =>
    .mk (if i.isSome then i else t.map JVal.str)
        (some (t.getD ""))
        (some (d.getD false))
        (some (s.getD false))
        ex
        (match ch with
         | none => none
         | some cs => some (normalizeList cs))

/-- `children.map(normalizeItem)`. -/
def normalizeList : List RawItem → List RawItem
  | [] => []
  | x :: xs => normalizeItem x :: normalizeList xs

end

mutual

/-- Every node of the item tree has at least one of `id`, `text`
defined.  This is what the data model requires of an `Item`
(`text` is a required attribute). -/
def hasIdentity : RawItem → Bool
  | .mk i t _ _ _ ch =>
    (i.isSome || t.isSome) &&
    (match ch with
     | none => true
     | some cs => hasIdentityList cs)

/-- `hasIdentity` over an array of children. -/
def hasIdentityList : List RawItem → Bool
  | [] => true
  | x :: xs => hasIdentity x && hasIdentityList xs

end

/-- The options `DataAdapter.select` consults: `multiple`,
`maximumSelectionLength` (0 = unlimited) and the language entry
`maximumSelected` (`some f` models `language.maximumSelected` being a
function, `none` the fallback string path). -/
structure SelectOptions where
  multiple : Bool
  maximumSelectionLength : Nat
  maximumSelected : Option (Nat → String)

/-- The notifications `DataAdapter` emits (internal bus; the DOM-level
re-dispatch duplicates the same payloads and is not modelled
separately). -/
inductive SelEvent : Type where
  | selectionLimitReached (maximum : Nat) (message : String)
  | selectEv (data : RawItem)
  | changeEv
  | unselectEv (data : RawItem)

/-- `DataAdapter.select`: single mode replaces the selection
unconditionally; multi mode first rejects an already-present id
(strict `===` comparison), then enforces `maximumSelectionLength`,
else appends.  Returns (success flag, new selection, emitted events). -/
def DataAdapter.select (opts : SelectOptions) (selection : List RawItem)
    (data : RawItem) : Bool × List RawItem × List SelEvent :=
  if !opts.multiple then
    (true, [data], [.selectEv data, .changeEv])
  else
    let exists0 := selection.any (fun item => item.id == data.id)
    if !exists0 then
      if opts.maximumSelectionLength > 0 &&
          selection.length ≥ opts.maximumSelectionLength then
        let message :=
          match opts.maximumSelected with
          | some f => f opts.maximumSelectionLength
          | none =>
            s!"You can only select {opts.maximumSelectionLength} items"
        (false, selection,
          [.selectionLimitReached opts.maximumSelectionLength message])
      else
        (true, selection ++ [data], [.selectEv data, .changeEv])
    else
      (false, selection, [])

/-- `DataAdapter.unselect`: remove by id match. -/
def DataAdapter.unselect (selection : List RawItem) (data : RawItem) :
    List RawItem :=
  selection.filter (fun item => !(item.id == data.id))

/-- One call in a `select`/`unselect` call sequence. -/
inductive SelOp : Type where
  | sel (data : RawItem)
  | unsel (data : RawItem)

/-- Run a sequence of `select`/`unselect` calls against the Item Store
selection (the boolean result and events of each step are dropped). -/
def DataAdapter.runOps (opts : SelectOptions) (selection : List RawItem) :
    List SelOp → List RawItem
  | [] => selection
  | .sel d :: rest =>
    DataAdapter.runOps opts (DataAdapter.select opts selection d).2.1 rest
  | .unsel d :: rest =>
    DataAdapter.runOps opts (DataAdapter.unselect selection d) rest

/-- JavaScript `String.prototype.trim()`: strip whitespace from both
ends.  (Defined by structural recursion over the character list so that
concrete instances evaluate; `String.trim` of the core library is
observably the same operation.) -/
def jsTrim (s : String) : String :=
  String.mk
    (((s.toList.dropWhile Char.isWhitespace).reverse.dropWhile
      Char.isWhitespace).reverse)

/-- `SearchManager.search`: for an empty or whitespace-only term return
the items unchanged; otherwise keep a plain item when the matcher
accepts it, and keep a group (an entry whose `children` is an array)
exactly when filtering its children by the matcher leaves a non-empty
list, carrying only those children.  The matcher is the caller-facing
`(term, item) → bool` predicate (custom matchers are black boxes, so it
is a parameter here). -/
def SearchManager.search (matcher : String → RawItem → Bool)
    (items : List RawItem) (term : String) : List RawItem :=
  if term = "" || jsTrim term = "" then items
  else
    items.foldl
      (fun results item =>
        match item.children with
        | some cs =>
          let filteredChildren := cs.filter (fun child => matcher term child)
          if filteredChildren.length > 0 then
            results ++ [item.withChildren filteredChildren]
          else results
        | none =>
          if matcher term item then results ++ [item] else results)
      []

/-- The options `ResultsAdapter._updateWithLocalData` consults for tag
injection.  `insertTagAt` models the caller-controlled insertion point
of the `insertTag` callback (the shipped default `data.unshift(tag)` is
position 0); `createTag` models the caller's tag factory applied to
`{term}`. -/
structure LocalOpts where
  matcher : String → RawItem → Bool
  tags : Bool
  createTag : String → Option RawItem
  insertTagAt : Nat

/-- JS `array.splice(pos, 0, x)` clamps the position to the array
length, so insertion always happens. -/
def spliceInsert (pos : Nat) (a : RawItem) (l : List RawItem) :
    List RawItem :=
  List.insertIdx (min pos l.length) a l

/-- `ResultsAdapter._updateWithLocalData`, reduced to the result list it
hands to the renderer: filter via `SearchManager.search`; when tagging
is enabled and the term is non-empty with a non-empty trimmed form,
call the tag factory with the trimmed term and, unless some entry of
the filtered list has the same id under case-insensitive `String(...)`
comparison, insert the candidate (marked `_isTag`) at the
caller-controlled point. -/
def ResultsAdapter.updateWithLocalData (o : LocalOpts)
    (allData : List RawItem) (term : String) : List RawItem :=
  let filteredResults := SearchManager.search o.matcher allData term
  if o.tags && term ≠ "" && jsTrim term ≠ "" then
    match o.createTag (jsTrim term) with
    | some tag =>
      let tagExists := filteredResults.any
        (fun item => (jstrOpt item.id).toLower == (jstrOpt tag.id).toLower)
      if !tagExists then
        spliceInsert o.insertTagAt tag.setIsTag filteredResults
      else filteredResults
    | none => filteredResults
  else filteredResults

/-- The `{term, page}` parameter record of a remote query. -/
structure AjaxParams where
  term : String
  page : Nat
deriving DecidableEq, Repr

/-- The normalized pagination record (`pagination.more`). -/
structure Pagination where
  more : Bool
deriving DecidableEq, Repr

/-- The normalized shape `AjaxAdapter.query` always resolves with:
`{results, pagination}`. -/
structure AjaxResult where
  results : List RawItem
  pagination : Pagination

/-- What the caller's `processResults(data, params)` returns before
normalization: `results` may fail to be an array (`none`) and
`pagination` may be absent. -/
structure ProcessedResults where
  results : Option (List RawItem)
  pagination : Option Pagination

/-- The behaviour of one dispatched transport request: it either
fulfills with a raw response or rejects with an error whose `name`
property is recorded (cancellation rejects with `name = "AbortError"`). -/
inductive TransportOutcome (ρ : Type) : Type where
  | success (response : ρ)
  | failure (errName : String)

/-- The AJAX configuration fields `AjaxAdapter.query` reads. -/
structure AjaxCfg (ρ : Type) where
  cache : Bool
  processResults : ρ → AjaxParams → ProcessedResults

/-- Events emitted by `AjaxAdapter.query` (internal bus; the DOM-level
re-dispatch duplicates the payloads). -/
inductive AjaxEvent : Type where
  | ajaxLoading (params : AjaxParams)
  | ajaxSuccess (results : AjaxResult) (params : AjaxParams)
  | ajaxError (errName : String) (params : AjaxParams)

/-- `AjaxAdapter.query` as a function of the transport outcome: a cache
hit short-circuits; otherwise the request is dispatched and either the
`.then` branch (process, normalize, cache, success event) or the
`.catch` branch runs.  The `.catch` branch emits an error event only
when `error.name !== "AbortError"` and resolves with
`{results: [], pagination: {more: false}}`; the promise never rejects,
which the total return type mirrors. -/
def AjaxAdapter.query {ρ : Type} (cfg : AjaxCfg ρ)
    (cache : List (AjaxParams × AjaxResult)) (params : AjaxParams)
    (outcome : TransportOutcome ρ) :
    AjaxResult × List AjaxEvent × List (AjaxParams × AjaxResult) :=
  match cfg.cache, cache.lookup params with
  | true, some cached => (cached, [], cache)
  | _, _ =>
    match outcome with
    | .success response =>
      let processed := cfg.processResults response params
      let normalized : AjaxResult :=
        { results :=
            match processed.results with
            | some rs => rs.map normalizeItem
            | none => []
          pagination := processed.pagination.getD { more := false } }
      let cache' := if cfg.cache then (params, normalized) :: cache else cache
      (normalized,
        [.ajaxLoading params, .ajaxSuccess normalized params], cache')
    | .failure errName =>
      ({ results := [], pagination := { more := false } },
        [.ajaxLoading params] ++
          (if errName ≠ "AbortError" then [.ajaxError errName params]
           else []),
        cache)

/-- An in-flight remote request as dispatched by
`ResultsAdapter._updateWithAjax`: the token captured by the `.then`
closure, the `{term, page}` parameters it was sent with, and the
captured `append` argument.  The unique `Symbol("search")` token is
modelled by a generation counter, which is behaviourally identical. -/
structure PendingReq where
  token : Nat
  term : String
  page : Nat
  append : Bool
deriving DecidableEq, Repr

/-- The Query Coordinator state (`ResultsAdapter` fields), together with
the Item Store backing data it writes (`storeData`, via
`dataAdapter.setData`), the result list last handed to the renderer
(`displayed`, via `results.update`), the set of dispatched requests
whose handling has not run yet (`pending`), and the armed state of the
500 ms load-more release timer. -/
structure CoordState where
  currentSearchTerm : String
  currentPage : Nat
  hasMore : Bool
  isLoadingMore : Bool
  accumulatedResults : List RawItem
  currentSearchToken : Option Nat
  nextToken : Nat
  storeData : List RawItem
  displayed : List RawItem
  pending : List PendingReq
  loadMoreTimerArmed : Bool

/-- The constructor state of `ResultsAdapter`. -/
def CoordState.init : CoordState :=
  { currentSearchTerm := ""
    currentPage := 1
    hasMore := false
    isLoadingMore := false
    accumulatedResults := []
    currentSearchToken := none
    nextToken := 0
    storeData := []
    displayed := []
    pending := []
    loadMoreTimerArmed := false }

/-- The synchronous body of `ResultsAdapter._updateWithAjax(term,
append)` up to and including the dispatch of `ajaxAdapter.query`: when
the term changed, reset `currentPage` to 1 and clear
`accumulatedResults` (and force `append` to false); record the term,
capture a fresh search token, and dispatch `{term, page: currentPage}`.
Returns the new state and the dispatched request. -/
def ResultsAdapter.updateWithAjax (s : CoordState) (term : String)
    (append : Bool) : CoordState × PendingReq :=
  let reset := term ≠ s.currentSearchTerm
  let page0 := if reset then 1 else s.currentPage
  let acc0 := if reset then [] else s.accumulatedResults
  let append0 := if reset then false else append
  let tok := s.nextToken
  let req : PendingReq := ⟨tok, term, page0, append0⟩
  ({ s with
      currentSearchTerm := term
      currentPage := page0
      accumulatedResults := acc0
      currentSearchToken := some tok
      nextToken := tok + 1
      pending := s.pending ++ [req] }, req)

/-- The `.then` callback of `_updateWithAjax`, run on the state at
response-delivery time: a response whose captured token no longer
matches `currentSearchToken` returns early without any state change;
otherwise update `hasMore` from the response's pagination flag, replace
or append `accumulatedResults` (append only when the captured `append`
is set and the live `currentPage` exceeds 1), push the accumulation
into the Item Store via `setData` (which re-normalizes), and hand it to
the renderer.  (Bookkeeping of `pending` is done by `stepRespond`, not
here, so a discarded response is an exact no-op on this state.) -/
def ResultsAdapter.resolveSuccess (s : CoordState) (req : PendingReq)
    (resp : AjaxResult) : CoordState :=
  if s.currentSearchToken ≠ some req.token then s
  else
    let acc :=
      if req.append && s.currentPage > 1 then
        s.accumulatedResults ++ resp.results
      else resp.results
    { s with
        hasMore := resp.pagination.more
        accumulatedResults := acc
        storeData := acc.map normalizeItem
        displayed := acc }

/-- Delivery of a response from the event loop: the request stops being
pending and its `.then` callback runs. -/
def ResultsAdapter.stepRespond (s : CoordState) (req : PendingReq)
    (resp : AjaxResult) : CoordState :=
  ResultsAdapter.resolveSuccess
    { s with pending := s.pending.erase req } req resp

/-- `ResultsAdapter.loadMore`: guarded by `hasMore` and `isLoadingMore`;
on entry set `isLoadingMore`, advance `currentPage`, re-issue
`_updateWithAjax` with append semantics for the current term, and arm
the fixed 500 ms timer whose callback releases `isLoadingMore`. -/
def ResultsAdapter.loadMore (s : CoordState) : CoordState :=
  if !s.hasMore || s.isLoadingMore then s
  else
    let s1 := { s with
      isLoadingMore := true
      currentPage := s.currentPage + 1 }
    let s2 := (ResultsAdapter.updateWithAjax s1 s1.currentSearchTerm true).1
    { s2 with loadMoreTimerArmed := true }

/-- `ResultsAdapter._handleScroll`: same guards, then trigger `loadMore`
when scrolled near the bottom (the geometric threshold test is the
boolean argument). -/
def ResultsAdapter.handleScroll (s : CoordState) (nearBottom : Bool) :
    CoordState :=
  if !s.hasMore || s.isLoadingMore then s
  else if nearBottom then ResultsAdapter.loadMore s else s

/-- The 500 ms `setTimeout` callback armed by `loadMore`: it releases
`isLoadingMore` unconditionally after the fixed delay — firing this
event before a response delivery models a response latency above
500 ms. -/
def ResultsAdapter.loadMoreTimerFire (s : CoordState) : CoordState :=
  if s.loadMoreTimerArmed then
    { s with isLoadingMore := false, loadMoreTimerArmed := false }
  else s

/-- The flat rendered item list entry data `KeyboardManager._navigate`
consults: only `disabled` matters for the walk. -/
structure NavItem where
  disabled : Bool
deriving DecidableEq, Repr

/-- One iteration of the `while (renderedItems[newIndex]?.disabled)`
loop of `KeyboardManager._navigate`: either the loop exits (`some`
result: the index to highlight, or `none` for the early `return` when
the walk got back to `currentIndex`), or it continues at the next
wrapped index (`Sum.inr`). -/
def KeyboardManager.navStep (flat : List NavItem) (currentIndex : Int)
    (direction : Int) (newIndex : Int) : Option (Option Int) ⊕ Int :=
  let total : Int := flat.length
  match (if newIndex < 0 then none else flat[newIndex.toNat]?) with
  | some item =>
    if item.disabled then
      let n1 := newIndex + direction
      let n2 := if n1 < 0 then total - 1 else if n1 ≥ total then 0 else n1
      if n2 = currentIndex then Sum.inl (some none) else Sum.inr n2
    else Sum.inl (some (some newIndex))
  | none => Sum.inl (some (some newIndex))

/-- The `while` loop of `_navigate`, run with explicit fuel: `none`
means the fuel ran out with the loop still running.  The JS loop has no
other bound, so an input on which every fuel amount returns `none` is
an input on which the browser loop never terminates. -/
def KeyboardManager.navLoop (flat : List NavItem) (currentIndex : Int)
    (direction : Int) : Nat → Int → Option (Option Int)
  | 0, _ => none
  | fuel + 1, newIndex =>
    match KeyboardManager.navStep flat currentIndex direction newIndex with
    | Sum.inl r => r
    | Sum.inr n =>
      KeyboardManager.navLoop flat currentIndex direction fuel n

/-- `KeyboardManager._navigate(direction)` with explicit loop fuel:
compute the entry index with wrap-around, then walk over disabled
entries.  Result: `none` = fuel exhausted (the JS loop is still
spinning); `some none` = returned without highlighting; `some (some i)`
= highlight index `i`. -/
def KeyboardManager.navigate (flat : List NavItem) (currentIndex : Int)
    (direction : Int) (fuel : Nat) : Option (Option Int) :=
  let totalResults : Int := flat.length
  if totalResults = 0 then some none
  else
    let n1 := currentIndex + direction
    let n2 :=
      if n1 < 0 then totalResults - 1
      else if n1 ≥ totalResults then 0
      else n1
    KeyboardManager.navLoop flat currentIndex direction fuel n2

/-- C1: for two remote searches issued in order (A for `tA`, then B for
`tB`) whose responses resolve out of order (B first, then A), the
late delivery of A's response is an exact no-op on the coordinator
state — it is discarded by the token check without merging, without
updating `hasMore`, and without touching the Item Store's backing data
— and the displayed list and accumulated results equal exactly those
produced from B's response. -/
theorem C1_supersession_last_issued_wins (s0 : CoordState)
    (tA tB : String) (rA rB : AjaxResult) :
    let issueA := ResultsAdapter.updateWithAjax s0 tA false
    let issueB := ResultsAdapter.updateWithAjax issueA.1 tB false
    let afterB := ResultsAdapter.resolveSuccess issueB.1 issueB.2 rB
    let afterA := ResultsAdapter.resolveSuccess afterB issueA.2 rA
    afterA = afterB
    ∧ afterB.displayed = rB.results
    ∧ afterB.accumulatedResults = rB.results
    ∧ afterB.hasMore = rB.pagination.more
    ∧ afterB.storeData = rB.results.map normalizeItem := by
  simp only [ResultsAdapter.updateWithAjax, ResultsAdapter.resolveSuccess]
  simp [ite_self]

/-- C3: issuing a remote query for a term different from the current one
resets `currentPage` to 1 and empties `accumulatedResults` before the
new request is dispatched, so the dispatched request itself carries
page 1 — pagination state is never carried across terms. -/
theorem C3_term_change_resets_pagination (s : CoordState) (t' : String)
    (append : Bool) (h : t' ≠ s.currentSearchTerm) :
    (ResultsAdapter.updateWithAjax s t' append).1.currentPage = 1
    ∧ (ResultsAdapter.updateWithAjax s t' append).1.accumulatedResults = []
    ∧ (ResultsAdapter.updateWithAjax s t' append).2.page = 1
    ∧ (ResultsAdapter.updateWithAjax s t' append).2.term = t' := by
  simp [ResultsAdapter.updateWithAjax, h]

/-- Witness for C3 at a concrete remote-backed state with `page = 3` and
non-empty accumulated results. -/
theorem C3_term_change_resets_pagination_witness :
    (ResultsAdapter.updateWithAjax
      { CoordState.init with
          currentSearchTerm := "ab"
          currentPage := 3
          accumulatedResults := [RawItem.mk (some (.num 1)) (some "x")
            none none [] none] }
      "abc" true).1.currentPage = 1
    ∧ (ResultsAdapter.updateWithAjax
      { CoordState.init with
          currentSearchTerm := "ab"
          currentPage := 3
          accumulatedResults := [RawItem.mk (some (.num 1)) (some "x")
            none none [] none] }
      "abc" true).1.accumulatedResults = []
    ∧ (ResultsAdapter.updateWithAjax
      { CoordState.init with
          currentSearchTerm := "ab"
          currentPage := 3
          accumulatedResults := [RawItem.mk (some (.num 1)) (some "x")
            none none [] none] }
      "abc" true).2.page = 1 := by
  have h := C3_term_change_resets_pagination
    { CoordState.init with
        currentSearchTerm := "ab"
        currentPage := 3
        accumulatedResults := [RawItem.mk (some (.num 1)) (some "x")
          none none [] none] }
    "abc" true (by decide)
  exact ⟨h.1, h.2.1, h.2.2.1⟩

/-- One `select` call keeps the selection length within 1 in single
mode, and within `maximumSelectionLength` in multi mode when the limit
is positive. -/
theorem select_length_bound (opts : SelectOptions) (sel : List RawItem)
    (d : RawItem) :
    (opts.multiple = false →
      (DataAdapter.select opts sel d).2.1.length ≤ 1)
    ∧ (opts.multiple = true → 0 < opts.maximumSelectionLength →
      sel.length ≤ opts.maximumSelectionLength →
      (DataAdapter.select opts sel d).2.1.length ≤
        opts.maximumSelectionLength) := by
  constructor
  · intro hm
    simp [DataAdapter.select, hm]
  · intro hm hpos hlen
    simp only [DataAdapter.select, hm, Bool.not_true, Bool.false_eq_true,
      if_false]
    split
    · split
      · exact hlen
      · rename_i hno
        simp only [List.length_append, List.length_cons, List.length_nil]
        have hlt : ¬ opts.maximumSelectionLength ≤ sel.length := by
          intro hle
          exact hno (by simp [hpos, hle])
        omega
    · exact hlen

/-- `unselect` never grows the selection. -/
theorem unselect_length_le (sel : List RawItem) (d : RawItem) :
    (DataAdapter.unselect sel d).length ≤ sel.length := by
  simpa [DataAdapter.unselect] using List.length_filter_le _ sel

/-- A selection-length bound preserved by each `select` step is
preserved along any call sequence (`unselect` only shrinks). -/
theorem runOps_length_bound (opts : SelectOptions) (bound : Nat)
    (hstep : ∀ sel d, sel.length ≤ bound →
      (DataAdapter.select opts sel d).2.1.length ≤ bound) :
    ∀ (ops : List SelOp) (sel : List RawItem), sel.length ≤ bound →
      (DataAdapter.runOps opts sel ops).length ≤ bound
  | [], _, h => h
  | .sel d :: rest, sel, h =>
    runOps_length_bound opts bound hstep rest _ (hstep sel d h)
  | .unsel d :: rest, sel, h =>
    runOps_length_bound opts bound hstep rest _
      (le_trans (unselect_length_le sel d) h)

/-- C2: selection-cardinality invariants of the Item Store.  (1) In
single mode `current().length ≤ 1` holds after every `select`/`unselect`
call sequence.  (2) In multi mode with `maximumSelectionLength = N > 0`,
`current().length ≤ N` always holds.  (3) A `select` of a distinct-id
item when `current().length = N` returns failure, leaves the selection
unchanged, and emits exactly one limit-reached notification carrying
`maximum = N` and a human-readable message. -/
theorem C2_selection_cardinality :
    (∀ (opts : SelectOptions) (init : List RawItem) (ops : List SelOp),
      opts.multiple = false → init.length ≤ 1 →
      (DataAdapter.runOps opts init ops).length ≤ 1)
    ∧ (∀ (opts : SelectOptions) (init : List RawItem) (ops : List SelOp),
      opts.multiple = true → 0 < opts.maximumSelectionLength →
      init.length ≤ opts.maximumSelectionLength →
      (DataAdapter.runOps opts init ops).length ≤
        opts.maximumSelectionLength)
    ∧ (∀ (opts : SelectOptions) (sel : List RawItem) (data : RawItem),
      opts.multiple = true → 0 < opts.maximumSelectionLength →
      sel.length = opts.maximumSelectionLength →
      (∀ s ∈ sel, s.id ≠ data.id) →
      (DataAdapter.select opts sel data).1 = false
      ∧ (DataAdapter.select opts sel data).2.1 = sel
      ∧ ∃ msg, (DataAdapter.select opts sel data).2.2 =
          [SelEvent.selectionLimitReached opts.maximumSelectionLength
            msg]) := by
  refine ⟨?_, ?_, ?_⟩
  · intro opts init ops hm hlen
    exact runOps_length_bound opts 1
      (fun sel d _ => (select_length_bound opts sel d).1 hm) ops init hlen
  · intro opts init ops hm hpos hlen
    exact runOps_length_bound opts opts.maximumSelectionLength
      (fun sel d h => (select_length_bound opts sel d).2 hm hpos h)
      ops init hlen
  · intro opts sel data hm hpos hlen hdist
    have hex : (sel.any fun item => item.id == data.id) = false := by
      simp only [List.any_eq_false]
      intro s hs
      simpa using hdist s hs
    simp only [DataAdapter.select, hm, Bool.not_true, Bool.false_eq_true,
      if_false, hex, Bool.not_false, if_true]
    have hcond : (decide (opts.maximumSelectionLength > 0) &&
        decide (sel.length ≥ opts.maximumSelectionLength)) = true := by
      simp [hpos, hlen.ge]
    simp [hcond]

/-- Witness for C2, running the spec's end-to-end limit scenario:
items with ids 1, 2, 3 in multi mode with `maximumSelectionLength = 2`
(and a single-mode sequence for part (1)). -/
theorem C2_selection_cardinality_witness :
    (DataAdapter.runOps ⟨false, 0, none⟩ []
      [.sel (RawItem.mk (some (.num 1)) (some "a") none none [] none),
       .sel (RawItem.mk (some (.num 2)) (some "b") none none [] none)]
      ).length ≤ 1
    ∧ (DataAdapter.runOps ⟨true, 2, none⟩ []
      [.sel (RawItem.mk (some (.num 1)) (some "a") none none [] none),
       .sel (RawItem.mk (some (.num 2)) (some "b") none none [] none),
       .sel (RawItem.mk (some (.num 3)) (some "c") none none [] none)]
      ).length ≤ 2
    ∧ (DataAdapter.select ⟨true, 2, none⟩
        [RawItem.mk (some (.num 1)) (some "a") none none [] none,
         RawItem.mk (some (.num 2)) (some "b") none none [] none]
        (RawItem.mk (some (.num 3)) (some "c") none none [] none)).1 =
        false
    ∧ (DataAdapter.select ⟨true, 2, none⟩
        [RawItem.mk (some (.num 1)) (some "a") none none [] none,
         RawItem.mk (some (.num 2)) (some "b") none none [] none]
        (RawItem.mk (some (.num 3)) (some "c") none none [] none)).2.1 =
        [RawItem.mk (some (.num 1)) (some "a") none none [] none,
         RawItem.mk (some (.num 2)) (some "b") none none [] none]
    ∧ ∃ msg, (DataAdapter.select ⟨true, 2, none⟩
        [RawItem.mk (some (.num 1)) (some "a") none none [] none,
         RawItem.mk (some (.num 2)) (some "b") none none [] none]
        (RawItem.mk (some (.num 3)) (some "c") none none [] none)).2.2 =
        [SelEvent.selectionLimitReached 2 msg] := by
  have h := C2_selection_cardinality
  have h3 := h.2.2 ⟨true, 2, none⟩
    [RawItem.mk (some (.num 1)) (some "a") none none [] none,
     RawItem.mk (some (.num 2)) (some "b") none none [] none]
    (RawItem.mk (some (.num 3)) (some "c") none none [] none)
    rfl (by decide) (by decide) (by decide)
  exact ⟨h.1 ⟨false, 0, none⟩ [] _ rfl (by decide),
    h.2.1 ⟨true, 2, none⟩ [] _ rfl (by decide) (by decide),
    h3.1, h3.2.1, h3.2.2⟩

/-- C4 (amended): in multi-select mode, presence of an id in the
selection is decided by strict (`===`, type-sensitive) equality; for
every item whose id is strictly equal to an already-selected item's id,
`select` returns failure and leaves `current()` unchanged (same list,
hence same length and member set), emitting nothing. -/
theorem C4_duplicate_select_strict (opts : SelectOptions)
    (sel : List RawItem) (data : RawItem) (hm : opts.multiple = true)
    (h : ∃ s ∈ sel, s.id = data.id) :
    (DataAdapter.select opts sel data).1 = false
    ∧ (DataAdapter.select opts sel data).2.1 = sel
    ∧ (DataAdapter.select opts sel data).2.2 = [] := by
  have hex : (sel.any fun item => item.id == data.id) = true := by
    obtain ⟨s, hs, hid⟩ := h
    exact List.any_eq_true.2 ⟨s, hs, by simpa using hid⟩
  simp [DataAdapter.select, hm, hex]

/-- Witness for C4 (amended): re-selecting the already-selected id 1. -/
theorem C4_duplicate_select_strict_witness :
    (DataAdapter.select ⟨true, 0, none⟩
      [RawItem.mk (some (.num 1)) (some "a") none none [] none]
      (RawItem.mk (some (.num 1)) (some "a2") none none [] none)).1 =
      false
    ∧ (DataAdapter.select ⟨true, 0, none⟩
      [RawItem.mk (some (.num 1)) (some "a") none none [] none]
      (RawItem.mk (some (.num 1)) (some "a2") none none [] none)).2.1 =
      [RawItem.mk (some (.num 1)) (some "a") none none [] none] := by
  have h := C4_duplicate_select_strict ⟨true, 0, none⟩
    [RawItem.mk (some (.num 1)) (some "a") none none [] none]
    (RawItem.mk (some (.num 1)) (some "a2") none none [] none)
    rfl ⟨_, List.mem_singleton_self _, rfl⟩
  exact ⟨h.1, h.2.1⟩

/-- Counterexample to C4 as stated: the code compares ids with strict
`===`, not string-normalized equality.  With numeric id `1` selected,
selecting string id `"1"` — the same identity under `String(...)`
normalization, as the first conjunct records — succeeds and grows the
selection to length 2, instead of failing and leaving it unchanged. -/
theorem C4_duplicate_select_counterexample :
    jstrOpt (RawItem.mk (some (.num 1)) (some "a") none none [] none).id =
      jstrOpt (RawItem.mk (some (.str "1")) (some "a") none none []
        none).id
    ∧ (DataAdapter.select ⟨true, 0, none⟩
        [RawItem.mk (some (.num 1)) (some "a") none none [] none]
        (RawItem.mk (some (.str "1")) (some "a") none none [] none)).1 =
        true
    ∧ (DataAdapter.select ⟨true, 0, none⟩
        [RawItem.mk (some (.num 1)) (some "a") none none [] none]
        (RawItem.mk (some (.str "1")) (some "a") none none [] none)
        ).2.1.length = 2 := by
  refine ⟨rfl, ?_, ?_⟩ <;> rfl

/-- C7: when a dispatched remote request fails (its promise rejects with
an error named `errName`), `AjaxAdapter.query` resolves — it never
rejects, which the total return type mirrors — with exactly
`{results: [], pagination: {more: false}}`, leaves the cache untouched,
and emits an `ajaxError` event carrying the error and the original
params if and only if the failure is not a cancellation (identified by
the `error.name !== "AbortError"` check). -/
theorem C7_failure_resolves_empty {ρ : Type} (cfg : AjaxCfg ρ)
    (cache : List (AjaxParams × AjaxResult)) (params : AjaxParams)
    (errName : String)
    (hmiss : cfg.cache = false ∨ cache.lookup params = none) :
    (AjaxAdapter.query cfg cache params (.failure errName)).1.results = []
    ∧ (AjaxAdapter.query cfg cache params
        (.failure errName)).1.pagination = { more := false }
    ∧ (AjaxEvent.ajaxError errName params ∈
        (AjaxAdapter.query cfg cache params (.failure errName)).2.1 ↔
        errName ≠ "AbortError")
    ∧ (AjaxAdapter.query cfg cache params (.failure errName)).2.2 =
        cache := by
  have hbranch :
      AjaxAdapter.query cfg cache params (.failure errName) =
      ({ results := [], pagination := { more := false } },
        [.ajaxLoading params] ++
          (if errName ≠ "AbortError" then [.ajaxError errName params]
           else []),
        cache) := by
    unfold AjaxAdapter.query
    rcases hmiss with h | h
    · rw [h]
    · rw [h]
      rcases cfg.cache with _ | _ <;> rfl
  rw [hbranch]
  refine ⟨rfl, rfl, ?_, rfl⟩
  by_cases h : errName = "AbortError" <;> simp [h]

/-- Witness for C7: a failing non-cancellation request against an empty
cache resolves with the empty shape and emits the error event. -/
theorem C7_failure_resolves_empty_witness :
    (AjaxAdapter.query (ρ := Unit)
      ⟨false, fun _ _ => ⟨none, none⟩⟩ [] ⟨"a", 1⟩
      (.failure "TypeError")).1.results = []
    ∧ (AjaxAdapter.query (ρ := Unit)
      ⟨false, fun _ _ => ⟨none, none⟩⟩ [] ⟨"a", 1⟩
      (.failure "TypeError")).1.pagination = { more := false }
    ∧ AjaxEvent.ajaxError "TypeError" ⟨"a", 1⟩ ∈
      (AjaxAdapter.query (ρ := Unit)
        ⟨false, fun _ _ => ⟨none, none⟩⟩ [] ⟨"a", 1⟩
        (.failure "TypeError")).2.1 := by
  have h := C7_failure_resolves_empty (ρ := Unit)
    ⟨false, fun _ _ => ⟨none, none⟩⟩ [] ⟨"a", 1⟩ "TypeError"
    (Or.inl rfl)
  exact ⟨h.1, h.2.1, h.2.2.1.2 (by decide)⟩

/-- C8: in local mode with tagging enabled and a term whose trimmed form
is non-empty, the coordinator invokes the tag factory with the trimmed
term; when the factory returns a candidate whose id is not
case-insensitively `String(...)`-equal to the id of any entry of the
filtered result list, the candidate is inserted at the caller-controlled
insertion point carrying the tag flag set to `true`; when an existing
entry shares the id, the result list is exactly the filtered list, with
no tag entry inserted. -/
theorem C8_tag_injection (o : LocalOpts) (allData : List RawItem)
    (term : String) (tag : RawItem) (htags : o.tags = true)
    (hterm : term ≠ "") (htrim : jsTrim term ≠ "")
    (hcreate : o.createTag (jsTrim term) = some tag) :
    ((∀ e ∈ SearchManager.search o.matcher allData term,
        (jstrOpt e.id).toLower ≠ (jstrOpt tag.id).toLower) →
      ResultsAdapter.updateWithLocalData o allData term =
        spliceInsert o.insertTagAt tag.setIsTag
          (SearchManager.search o.matcher allData term)
      ∧ tag.setIsTag ∈ ResultsAdapter.updateWithLocalData o allData term
      ∧ tag.setIsTag.isTagFlag = true)
    ∧ ((∃ e ∈ SearchManager.search o.matcher allData term,
        (jstrOpt e.id).toLower = (jstrOpt tag.id).toLower) →
      ResultsAdapter.updateWithLocalData o allData term =
        SearchManager.search o.matcher allData term) := by
  constructor
  · intro hno
    have hanyfalse : ((SearchManager.search o.matcher allData term).any
        fun item =>
          (jstrOpt item.id).toLower == (jstrOpt tag.id).toLower) =
        false := by
      simp only [List.any_eq_false]
      intro e he
      simpa using hno e he
    have heq : ResultsAdapter.updateWithLocalData o allData term =
        spliceInsert o.insertTagAt tag.setIsTag
          (SearchManager.search o.matcher allData term) := by
      unfold ResultsAdapter.updateWithLocalData
      simp [htags, hterm, htrim, hcreate, hanyfalse]
    refine ⟨heq, ?_, ?_⟩
    · rw [heq]
      unfold spliceInsert
      exact (List.mem_insertIdx (Nat.min_le_right _ _)).2 (Or.inl rfl)
    · cases tag
      simp [RawItem.setIsTag, RawItem.isTagFlag, RawItem.extra,
        List.lookup]
  · intro hyes
    have hanytrue : ((SearchManager.search o.matcher allData term).any
        fun item =>
          (jstrOpt item.id).toLower == (jstrOpt tag.id).toLower) =
        true := by
      obtain ⟨e, he, hid⟩ := hyes
      exact List.any_eq_true.2 ⟨e, he, by simpa using hid⟩
    unfold ResultsAdapter.updateWithLocalData
    simp [htags, hterm, htrim, hcreate, hanytrue]

/-- Witness for C8 (spec's tag-injection scenario): `tags: true`, term
`"new"`, a factory returning `{id: "new", text: "new"}`, and no
existing result sharing the id — the rendered list is exactly the
inserted tag entry, marked as a tag. -/
theorem C8_tag_injection_witness :
    ResultsAdapter.updateWithLocalData
      ⟨fun _ _ => false, true,
        fun t => some (RawItem.mk (some (.str t)) (some t) none none []
          none), 0⟩
      [] "new" =
      [(RawItem.mk (some (.str "new")) (some "new") none none []
        none).setIsTag]
    ∧ (RawItem.mk (some (.str "new")) (some "new") none none []
        none).setIsTag.isTagFlag = true := by
  have h := (C8_tag_injection
    ⟨fun _ _ => false, true,
      fun t => some (RawItem.mk (some (.str t)) (some t) none none []
        none), 0⟩
    [] "new"
    (RawItem.mk (some (.str "new")) (some "new") none none [] none)
    rfl (by decide) (by decide) rfl).1 (by
      intro e he
      simp [SearchManager.search, jsTrim] at he)
  exact ⟨h.1.trans rfl, h.2.2⟩

/-- Rename a group's own label (`text`) while leaving everything else —
in particular every child — untouched; non-group entries are left
as they are.  Used to state that a group's own label never influences
filtering. -/
def relabelGroups (f : String → String) (e : RawItem) : RawItem :=
  match e with
  | .mk i t d s ex (some cs) => .mk i (t.map f) d s ex (some cs)
  | e => e

/-- The accumulator-passing fold of `SearchManager.search` against a
direct per-entry description of its result. -/
theorem search_foldl_filterMap (m : String → RawItem → Bool)
    (term : String) :
    ∀ (items : List RawItem) (acc : List RawItem),
      items.foldl
        (fun results item =>
          match item.children with
          | some cs =>
            let filteredChildren := cs.filter (fun child => m term child)
            if filteredChildren.length > 0 then
              results ++ [item.withChildren filteredChildren]
            else results
          | none =>
            if m term item then results ++ [item] else results)
        acc =
      acc ++ items.filterMap (fun item =>
        match item.children with
        | some cs =>
          let ms := cs.filter (fun child => m term child)
          if ms.length > 0 then some (item.withChildren ms) else none
        | none => if m term item then some item else none)
  | [], acc => by simp
  | it :: rest, acc => by
    simp only [List.foldl_cons, List.filterMap_cons]
    cases hch : it.children with
    | none =>
      by_cases hm : m term it
      · simp [hch, hm, search_foldl_filterMap m term rest]
      · simp [hch, hm, search_foldl_filterMap m term rest]
    | some cs =>
      by_cases hlen : (cs.filter (fun child => m term child)).length > 0
      · simp [hch, hlen, search_foldl_filterMap m term rest]
      · simp [hch, hlen, search_foldl_filterMap m term rest]

/-- C6 (amended to terms whose trimmed form is non-empty): local search
keeps a plain entry exactly when the matcher accepts it, and keeps a
group exactly when at least one child matches, carrying exactly the
matching children in their original order (a group with no matching
child is absent); and a group's own label text never influences
inclusion — relabeling every group commutes with filtering. -/
theorem C6_group_filtering (m : String → RawItem → Bool)
    (items : List RawItem) (term : String) (h : jsTrim term ≠ "") :
    SearchManager.search m items term =
      items.filterMap (fun item =>
        match item.children with
        | some cs =>
          let ms := cs.filter (fun child => m term child)
          if ms.length > 0 then some (item.withChildren ms) else none
        | none => if m term item then some item else none)
    ∧ ∀ f : String → String,
        SearchManager.search m (items.map (relabelGroups f)) term =
          (SearchManager.search m items term).map (relabelGroups f) := by
  have hterm : ¬(term = "" || jsTrim term = "") = true := by
    simp only [Bool.or_eq_true, decide_eq_true_eq]
    rintro (rfl | htr)
    · exact h rfl
    · exact h htr
  have hsearch : ∀ (l : List RawItem),
      SearchManager.search m l term =
        l.filterMap (fun item =>
          match item.children with
          | some cs =>
            let ms := cs.filter (fun child => m term child)
            if ms.length > 0 then some (item.withChildren ms) else none
          | none => if m term item then some item else none) := by
    intro l
    unfold SearchManager.search
    rw [if_neg hterm]
    simpa using search_foldl_filterMap m term l []
  refine ⟨hsearch items, ?_⟩
  intro f
  rw [hsearch, hsearch, List.filterMap_map, List.map_filterMap]
  apply List.filterMap_congr
  intro it _
  cases it with
  | mk i t d s ex ch =>
    cases ch with
    | none => simp [relabelGroups, RawItem.children, Function.comp]
    | some cs =>
      simp only [Function.comp, relabelGroups, RawItem.children,
        RawItem.withChildren]
      split <;> rfl

/-- Witness for C6 (spec's group scenario): a group with children
`[A (matches), B (no match)]` keeps only `A`; a group with no matching
child disappears; relabeling group labels commutes with the filter. -/
theorem C6_group_filtering_witness :
    SearchManager.search (fun term it => (it.text.getD "") == term)
      [RawItem.mk none (some "G") none none []
        (some [RawItem.mk (some (.num 1)) (some "a") none none [] none,
               RawItem.mk (some (.num 2)) (some "b") none none [] none]),
       RawItem.mk none (some "H") none none []
        (some [RawItem.mk (some (.num 2)) (some "b") none none [] none])]
      "a" =
      [RawItem.mk none (some "G") none none []
        (some [RawItem.mk (some (.num 1)) (some "a") none none [] none])]
    ∧ SearchManager.search (fun term it => (it.text.getD "") == term)
      (([RawItem.mk none (some "G") none none []
        (some [RawItem.mk (some (.num 1)) (some "a") none none [] none,
               RawItem.mk (some (.num 2)) (some "b") none none [] none]),
       RawItem.mk none (some "H") none none []
        (some [RawItem.mk (some (.num 2)) (some "b") none none [] none])]
        ).map (relabelGroups (fun g => g ++ "!"))) "a" =
      (SearchManager.search (fun term it => (it.text.getD "") == term)
        [RawItem.mk none (some "G") none none []
          (some [RawItem.mk (some (.num 1)) (some "a") none none []
            none,
                 RawItem.mk (some (.num 2)) (some "b") none none []
            none]),
         RawItem.mk none (some "H") none none []
          (some [RawItem.mk (some (.num 2)) (some "b") none none []
            none])]
        "a").map (relabelGroups (fun g => g ++ "!")) := by
  have h := C6_group_filtering (fun term it => (it.text.getD "") == term)
    [RawItem.mk none (some "G") none none []
      (some [RawItem.mk (some (.num 1)) (some "a") none none [] none,
             RawItem.mk (some (.num 2)) (some "b") none none [] none]),
     RawItem.mk none (some "H") none none []
      (some [RawItem.mk (some (.num 2)) (some "b") none none [] none])]
    "a" (by decide)
  exact ⟨h.1.trans rfl, h.2 (fun g => g ++ "!")⟩

/-- Counterexample to C6 as stated: the term `" "` is non-empty, but
whitespace-only, so `search` returns the input unchanged without ever
consulting the matcher — with the constant-false matcher (under which
no child matches anything) the group is still included, child and all. -/
theorem C6_group_filtering_counterexample :
    SearchManager.search (fun _ _ => false)
      [RawItem.mk none (some "G") none none []
        (some [RawItem.mk (some (.num 1)) (some "a") none none [] none])]
      " " =
      [RawItem.mk none (some "G") none none []
        (some [RawItem.mk (some (.num 1)) (some "a") none none [] none])]
    ∧ (" " : String) ≠ "" := by
  exact ⟨rfl, by decide⟩

/-- C5 (amended): the `isLoadingMore` guard makes any load-more (by
scroll or direct call) attempted while the flag is set a complete
no-op; the flag is released by the fixed 500 ms timer, not by the
completion of the prior page's handling, so the guard holds exactly for
the timer window (for latencies above it, a next-page load-more can be
issued before the prior page's response is handled). -/
theorem C5_loadMore_guard (s : CoordState) (b : Bool)
    (h : s.isLoadingMore = true) :
    ResultsAdapter.loadMore s = s
    ∧ ResultsAdapter.handleScroll s b = s := by
  constructor
  · unfold ResultsAdapter.loadMore
    simp [h]
  · unfold ResultsAdapter.handleScroll
    simp [h]

/-- Witness for C5 (amended): with `isLoadingMore` set, neither a
scroll nor a direct `loadMore` changes anything. -/
theorem C5_loadMore_guard_witness :
    ResultsAdapter.loadMore
      { CoordState.init with hasMore := true, isLoadingMore := true } =
      { CoordState.init with hasMore := true, isLoadingMore := true }
    ∧ ResultsAdapter.handleScroll
      { CoordState.init with hasMore := true, isLoadingMore := true }
      true =
      { CoordState.init with hasMore := true, isLoadingMore := true } := by
  exact C5_loadMore_guard
    { CoordState.init with hasMore := true, isLoadingMore := true }
    true rfl

/-- Counterexample to C5 as stated: the guard does not hold "for every
possible response latency of page N".  Run: query `"x"`; its page-1
response arrives with `more: true`; a scroll issues the page-2 request;
the 500 ms release timer fires while that request is still pending
(i.e., its latency exceeds 500 ms); a second scroll then already issues
the page-3 request.  In the final state both the page-2 and the page-3
requests are pending — the page-3 load-more was issued before the
handling of page 2's response finished. -/
theorem C5_loadMore_guard_counterexample :
    (ResultsAdapter.handleScroll
      (ResultsAdapter.loadMoreTimerFire
        (ResultsAdapter.handleScroll
          (ResultsAdapter.stepRespond
            (ResultsAdapter.updateWithAjax CoordState.init "x" false).1
            (ResultsAdapter.updateWithAjax CoordState.init "x" false).2
            ⟨[RawItem.mk (some (.num 1)) (some "a") none none [] none],
              ⟨true⟩⟩)
          true))
      true).pending.map PendingReq.page = [2, 3]
    ∧ (ResultsAdapter.handleScroll
      (ResultsAdapter.loadMoreTimerFire
        (ResultsAdapter.handleScroll
          (ResultsAdapter.stepRespond
            (ResultsAdapter.updateWithAjax CoordState.init "x" false).1
            (ResultsAdapter.updateWithAjax CoordState.init "x" false).2
            ⟨[RawItem.mk (some (.num 1)) (some "a") none none [] none],
              ⟨true⟩⟩)
          true))
      true).currentPage = 3 := by
  exact ⟨rfl, rfl⟩

/-- On a one-entry, all-disabled list with no current highlight
(`highlightedIndex = -1`), every iteration of the `_navigate` skip loop
steps from index 0 back to index 0 and the `newIndex === currentIndex`
escape never fires (0 is never -1): the loop body never reaches an exit. -/
theorem navLoop_single_disabled_none :
    ∀ fuel : Nat,
      KeyboardManager.navLoop [⟨true⟩] (-1) 1 fuel 0 = none
  | 0 => rfl
  | fuel + 1 => navLoop_single_disabled_none fuel

/-- C9 (code bug): with a rendered list whose entries are all disabled
and no entry highlighted yet (`highlightedIndex` is the initial `-1`,
which is what rendering an all-disabled list leaves, since
auto-highlight only picks enabled entries), an ArrowDown move never
terminates — for every loop fuel the `while` loop of
`KeyboardManager._navigate` is still running, contradicting the code's
own "Prevent infinite loop if all items are disabled" guard comment and
the spec's no-op requirement. -/
theorem C9_navigate_all_disabled_loops_forever (fuel : Nat) :
    KeyboardManager.navigate [⟨true⟩] (-1) 1 fuel = none :=
  navLoop_single_disabled_none fuel

mutual

/-- Normalization is idempotent on any item tree in which every node has
`id` or `text` defined. -/
theorem normalizeItem_idem : ∀ (x : RawItem), hasIdentity x = true →
    normalizeItem (normalizeItem x) = normalizeItem x
  | .mk i t d s ex ch, h => by
    rw [hasIdentity.eq_def, Bool.and_eq_true] at h
    obtain ⟨hid, hch⟩ := h
    cases ch with
    | none =>
      rcases i with _ | iv
      · rcases t with _ | tv
        · simp at hid
        · rfl
      · rfl
    | some cs =>
      have hcs : normalizeList (normalizeList cs) = normalizeList cs :=
        normalizeList_idem cs hch
      rcases i with _ | iv
      · rcases t with _ | tv
        · simp at hid
        · simp only [normalizeItem, hcs]
          rfl
      · simp only [normalizeItem, hcs]
        rfl

/-- `normalizeItem_idem` over an array of children. -/
theorem normalizeList_idem : ∀ (xs : List RawItem),
    hasIdentityList xs = true →
    normalizeList (normalizeList xs) = normalizeList xs
  | [], _ => rfl
  | x :: xs, h => by
    rw [hasIdentityList.eq_def, Bool.and_eq_true] at h
    show normalizeItem (normalizeItem x) ::
      normalizeList (normalizeList xs) = _
    rw [normalizeItem_idem x h.1, normalizeList_idem xs h.2]
    rfl

end

/-- C10 (amended): item normalization is idempotent for every item in
which each node — the item itself and, recursively, its children — has
at least one of `id`, `text` defined (which the data model requires:
`text` is a required attribute).  For such items the id, text,
disabled, selected fields, the recursively normalized children, and all
preserved extra fields are unchanged by a second application, so
re-normalizing remote results through `setData` is safe.  (An item with
neither field defined is the sole exception: its `id` is `undefined`
after one pass and `""` after two.) -/
theorem C10_normalize_idempotent (x : RawItem)
    (h : hasIdentity x = true) :
    normalizeItem (normalizeItem x) = normalizeItem x :=
  normalizeItem_idem x h

/-- Witness for C10 (amended) on a grouped item with children. -/
theorem C10_normalize_idempotent_witness :
    hasIdentity (RawItem.mk (some (.num 1)) (some "g") none none []
      (some [RawItem.mk none (some "c") none none [] none,
             RawItem.mk (some (.str "k")) none (some true) none
               [("extra", .num 7)] none])) = true
    ∧ normalizeItem (normalizeItem
        (RawItem.mk (some (.num 1)) (some "g") none none []
          (some [RawItem.mk none (some "c") none none [] none,
                 RawItem.mk (some (.str "k")) none (some true) none
                   [("extra", .num 7)] none]))) =
      normalizeItem
        (RawItem.mk (some (.num 1)) (some "g") none none []
          (some [RawItem.mk none (some "c") none none [] none,
                 RawItem.mk (some (.str "k")) none (some true) none
                   [("extra", .num 7)] none])) :=
  ⟨rfl, C10_normalize_idempotent _ rfl⟩

/-- Counterexample to C10 as stated: for the item `{}` (no `id`, no
`text`) the first normalization leaves `id` `undefined` while the
second sets it to `""` (the normalized `text`), so normalizing an
already-normalized item is not always the identity. -/
theorem C10_normalize_not_idempotent_counterexample :
    normalizeItem (normalizeItem
      (RawItem.mk none none none none [] none)) ≠
      normalizeItem (RawItem.mk none none none none [] none) := by
  intro hEq
  exact (by decide :
    (normalizeItem (normalizeItem
      (RawItem.mk none none none none [] none))).id ≠
    (normalizeItem (RawItem.mk none none none none [] none)).id)
    (congrArg RawItem.id hEq)
